import Mathlib

/-!
Verification of the Cite-Flow frontend against its specification.

The development shallowly embeds the JavaScript source: the edge threshold
filter of the App component, the HTTP client in api.js, the search handler
onSearch, the SearchBar submit handler, and the Sidebar explanation handler.
The backend coupling scorer and layout engine are not among the provided
source files; their definitions are modelled from the specification text and
are marked as such in their doc comments.
-/

/-- Characters stripped by JavaScript String.prototype.trim, restricted to the
ASCII whitespace forms (space, tab, line feed, carriage return, vertical tab,
form feed). -/
def isJsWhitespace (c : Char) : Bool :=
  c = ' ' || c = '\t' || c = '\n' || c = '\r' || c = '\x0b' || c = '\x0c'

/-- JavaScript String.prototype.trim: whitespace removed from both ends. -/
def jsTrim (s : String) : String :=
  ⟨((s.data.dropWhile isJsWhitespace).reverse.dropWhile isJsWhitespace).reverse⟩

/-- Value of a list of decimal digit characters. -/
def digitsVal (ds : List Char) : ℕ :=
  ds.foldl (fun a c => 10 * a + (c.toNat - 48)) 0

/-- Character-level phase of JavaScript parseFloat on the exponent-free
decimal fragment: optional leading whitespace, optional sign, digits,
optional fraction, with any trailing characters ignored. Returns the sign
flag, the integer digits and the fraction digits; none when no digit is
consumed (NaN). Exponent and Infinity forms are outside the modelled
fragment and also yield none. -/
def jsParseFloatParts (s : String) : Option (Bool × List Char × List Char) :=
  let cs := s.data.dropWhile isJsWhitespace
  let neg := cs.head? = some '-'
  let cs := if cs.head? = some '-' || cs.head? = some '+' then cs.tail else cs
  let intPart := cs.takeWhile Char.isDigit
  let rest := cs.dropWhile Char.isDigit
  let fracPart := if rest.head? = some '.' then rest.tail.takeWhile Char.isDigit else []
  if intPart.isEmpty && fracPart.isEmpty then none
  else some (neg, intPart, fracPart)

/-- Numeric value of the parsed sign, integer digits and fraction digits. -/
def partsVal : Bool × List Char × List Char → ℚ
  | (neg, ip, fp) =>
    (if neg then -1 else 1) * ((digitsVal ip : ℚ) + (digitsVal fp : ℚ) / 10 ^ fp.length)

/-- JavaScript parseFloat on the modelled fragment; none stands for NaN. -/
def jsParseFloat (s : String) : Option ℚ :=
  (jsParseFloatParts s).map partsVal

/-- An edge of the React Flow payload as the App sees it: the label carries
the serialized weight and may be absent. -/
structure GraphEdge where
  source : String
  target : String
  label : Option String
deriving DecidableEq, Repr

/-- JavaScript `edge.label || "0"`: an absent label and the empty string are
both falsy and are replaced by the string "0". -/
def labelOrZero : Option String → String
  | none => "0"
  | some s => if s = "" then "0" else s

/-- The App filter predicate: `parseFloat(edge.label || "0") >= edgeThreshold`,
where a NaN weight compares false. -/
def edgePasses (t : ℚ) (e : GraphEdge) : Bool :=
  match jsParseFloat (labelOrZero e.label) with
  | some w => decide (t ≤ w)
  | none => false

/-- `filteredEdges` of the App component. -/
def filteredEdges (edges : List GraphEdge) (t : ℚ) : List GraphEdge :=
  edges.filter (edgePasses t)

/-- The retention predicate of the claim read literally: parseFloat applied to
the label itself, with only a missing label replaced by "0". -/
def claimRetained (t : ℚ) (e : GraphEdge) : Prop :=
  ∃ w, jsParseFloat (e.label.getD "0") = some w ∧ t ≤ w

/-- An edge whose label is present but empty. -/
def emptyLabelEdge : GraphEdge := ⟨"a", "b", some ""⟩

/-- An edge carrying the serialized weight 0.67. -/
def edge067 : GraphEdge := ⟨"a", "b", some "0.67"⟩

lemma jsParseFloat_empty : jsParseFloat "" = none := by decide

lemma jsParseFloat_zeroStr : jsParseFloat "0" = some 0 := by
  have h : jsParseFloatParts "0" = some (false, ['0'], []) := by decide
  have h1 : digitsVal ['0'] = 0 := by decide
  simp [jsParseFloat, h, partsVal, h1, digitsVal]

lemma jsParseFloat_067 : jsParseFloat "0.67" = some (67 / 100) := by
  have h : jsParseFloatParts "0.67" = some (false, ['0'], ['6', '7']) := by decide
  have h1 : digitsVal ['0'] = 0 := by decide
  have h2 : digitsVal ['6', '7'] = 67 := by decide
  simp [jsParseFloat, h, partsVal, h1, h2]
  norm_num

/-- C1 (amended): the App retains exactly the edges whose label — an absent
or empty label being treated as the string "0" — parses to a weight at least
the threshold; in particular an edge labelled with the plain decimal string
0.67 is retained exactly when 0.67 is at least the threshold. -/
theorem C1_filteredEdges_spec (edges : List GraphEdge) (t : ℚ) (e : GraphEdge) :
    (e ∈ filteredEdges edges t ↔
      e ∈ edges ∧ ∃ w, jsParseFloat (labelOrZero e.label) = some w ∧ t ≤ w) ∧
    (e.label = some "0.67" → (e ∈ filteredEdges edges t ↔ e ∈ edges ∧ t ≤ 67 / 100)) := by
  have hmain : e ∈ filteredEdges edges t ↔
      e ∈ edges ∧ ∃ w, jsParseFloat (labelOrZero e.label) = some w ∧ t ≤ w := by
    rw [filteredEdges, List.mem_filter]
    refine and_congr_right fun _ => ?_
    cases h : jsParseFloat (labelOrZero e.label) with
    | none => simp [edgePasses, h]
    | some w => simp [edgePasses, h]
  refine ⟨hmain, fun hl => ?_⟩
  have hlz : labelOrZero e.label = "0.67" := by rw [hl]; rfl
  rw [hmain, hlz, jsParseFloat_067]
  simp

/-- C1 as stated is false: with threshold 0, an edge whose label is the empty
string is retained by the code (the empty string is falsy, so the parsed text
is "0"), while parseFloat of the label itself is NaN, hence not at least the
threshold. -/
theorem C1_counterexample :
    emptyLabelEdge ∈ filteredEdges [emptyLabelEdge] 0 ∧ ¬ claimRetained 0 emptyLabelEdge := by
  constructor
  · have hp : edgePasses 0 emptyLabelEdge = true := by
      simp [edgePasses, emptyLabelEdge, labelOrZero, jsParseFloat_zeroStr]
    exact List.mem_filter.mpr ⟨List.mem_singleton_self _, hp⟩
  · rintro ⟨w, hw, -⟩
    rw [show emptyLabelEdge.label = some "" from rfl] at hw
    rw [show (some "").getD "0" = "" from rfl, jsParseFloat_empty] at hw
    exact Option.noConfusion hw

/-- Witness for C1: an edge labelled 0.67 survives the threshold 1/2. -/
theorem C1_witness : edge067 ∈ filteredEdges [edge067] (1 / 2) :=
  ((C1_filteredEdges_spec [edge067] (1 / 2) edge067).2 rfl).mpr
    ⟨List.mem_singleton_self _, by norm_num⟩

/-- Base URL of the backend, from api.js. -/
def API_BASE_URL : String := "http://localhost:8000"

/-- JavaScript `x || d` on an optional numeric argument: an absent argument
and the falsy number 0 yield the fallback, any other number passes through. -/
def jsOrNum (x : Option ℚ) (d : ℚ) : ℚ :=
  match x with
  | none => d
  | some v => if v = 0 then d else v

/-- The GET request issued by api.buildGraph, with the query parameters kept
structured. -/
structure BuildGraphRequest where
  method : String
  base : String
  path : String
  paper_id : String
  width : ℚ
  height : ℚ
deriving DecidableEq, Repr

/-- api.buildGraph from api.js: `const w = width || 1000; const h = height || 1000;`
and a GET on `/build_graph` with the three query parameters. -/
def buildGraphRequest (paperId : String) (width height : Option ℚ) : BuildGraphRequest :=
  ⟨"GET", API_BASE_URL, "/build_graph", paperId, jsOrNum width 1000, jsOrNum height 1000⟩

/-- A node of the graph payload, as far as the App state is concerned. -/
structure PaperNode where
  id : String
  isSeed : Bool
deriving DecidableEq, Repr

/-- The JSON payload of a successful build_graph response. -/
structure GraphPayload where
  nodes : List PaperNode
  edges : List GraphEdge
deriving DecidableEq, Repr

/-- The nodes and edges React state of the App component. -/
structure AppState where
  nodes : List PaperNode
  edges : List GraphEdge
deriving DecidableEq, Repr

/-- fetch Response.ok: status in the 2xx range. -/
def statusOk (status : ℕ) : Bool := decide (200 ≤ status ∧ status ≤ 299)

/-- An HTTP response to a build_graph request. -/
structure BuildGraphResponse where
  status : ℕ
  payload : GraphPayload

/-- Response handling in api.buildGraph: a non-ok status throws
("Failed to build graph"), an ok status returns the parsed payload. -/
def buildGraphResult (resp : BuildGraphResponse) : Except String GraphPayload :=
  if statusOk resp.status then .ok resp.payload else .error "Failed to build graph"

/-- One entry of the search response results list. -/
structure SearchResult where
  paperId : String
deriving DecidableEq, Repr

/-- The parsed search response; the results field may be absent. -/
structure SearchResponse where
  results : Option (List SearchResult)
deriving DecidableEq, Repr

/-- onSearch of the App component, after api.search has returned: when the
results list is non-empty it calls api.buildGraph on the first result with
the window dimensions and replaces the nodes and edges state on success; a
thrown build error is caught with the state untouched; an empty or absent
results list only alerts. The second component records the buildGraph call
issued, if any. -/
def onSearch (st : AppState) (searchRes : SearchResponse) (innerWidth innerHeight : ℚ)
    (buildOutcome : Except String GraphPayload) :
    AppState × Option (String × ℚ × ℚ) :=
  match searchRes.results with
  | some (r :: _) =>
    match buildOutcome with
    | .ok g => (⟨g.nodes, g.edges⟩, some (r.paperId, innerWidth, innerHeight))
    | .error _ => (st, some (r.paperId, innerWidth, innerHeight))
  | _ => (st, none)

/-- C2 (amended): api.buildGraph issues a GET on base/build_graph with the
given paper id, and each dimension defaults to 1000 exactly when its argument
is absent or zero (JavaScript falsy); every other value, negative values
included, is passed through unchanged. -/
theorem C2_buildGraphRequest (paperId : String) (width height : Option ℚ) :
    ((buildGraphRequest paperId width height).method = "GET" ∧
     (buildGraphRequest paperId width height).base = API_BASE_URL ∧
     (buildGraphRequest paperId width height).path = "/build_graph" ∧
     (buildGraphRequest paperId width height).paper_id = paperId) ∧
    ((width = none ∨ width = some 0) → (buildGraphRequest paperId width height).width = 1000) ∧
    (∀ x : ℚ, width = some x → x ≠ 0 → (buildGraphRequest paperId width height).width = x) ∧
    ((height = none ∨ height = some 0) → (buildGraphRequest paperId width height).height = 1000) ∧
    (∀ y : ℚ, height = some y → y ≠ 0 → (buildGraphRequest paperId width height).height = y) := by
  refine ⟨⟨rfl, rfl, rfl, rfl⟩, ?_, ?_, ?_, ?_⟩
  · rintro (rfl | rfl) <;> simp [buildGraphRequest, jsOrNum]
  · rintro x rfl hx; simp [buildGraphRequest, jsOrNum, hx]
  · rintro (rfl | rfl) <;> simp [buildGraphRequest, jsOrNum]
  · rintro y rfl hy; simp [buildGraphRequest, jsOrNum, hy]

/-- C2 as stated is false: the negative width -5 is non-positive yet truthy,
so api.buildGraph passes it through instead of defaulting to 1000. -/
theorem C2_counterexample :
    (-5 : ℚ) ≤ 0 ∧
    (buildGraphRequest "p1" (some (-5)) (some 600)).width = -5 ∧
    (-5 : ℚ) ≠ 1000 := by
  refine ⟨by norm_num, ?_, by norm_num⟩
  norm_num [buildGraphRequest, jsOrNum]

/-- Witness for C2: an absent width defaults to 1000 and a given height 600
is passed through. -/
theorem C2_witness :
    (buildGraphRequest "p1" none (some 600)).width = 1000 ∧
    (buildGraphRequest "p1" none (some 600)).height = 600 :=
  ⟨(C2_buildGraphRequest "p1" none (some 600)).2.1 (Or.inl rfl),
   (C2_buildGraphRequest "p1" none (some 600)).2.2.2.2 600 rfl (by norm_num)⟩

/-- C3: a non-2xx build_graph response makes api.buildGraph throw rather than
return a payload, and onSearch then leaves the nodes and edges state exactly
as it was, whatever the search response. -/
theorem C3_failedBuildKeepsState (resp : BuildGraphResponse)
    (h : statusOk resp.status = false) :
    buildGraphResult resp = .error "Failed to build graph" ∧
    ∀ (st : AppState) (searchRes : SearchResponse) (w hgt : ℚ),
      (onSearch st searchRes w hgt (buildGraphResult resp)).1 = st := by
  have herr : buildGraphResult resp = .error "Failed to build graph" := by
    simp [buildGraphResult, h]
  refine ⟨herr, fun st searchRes w hgt => ?_⟩
  rw [herr]
  rcases searchRes with ⟨_ | ⟨_ | ⟨r, rs⟩⟩⟩ <;> rfl

/-- Witness for C3: a 502 response leaves a concrete state untouched. -/
theorem C3_witness :
    (onSearch ⟨[⟨"n1", true⟩], []⟩ ⟨some [⟨"p2"⟩]⟩ 800 600
        (buildGraphResult ⟨502, ⟨[], []⟩⟩)).1 = ⟨[⟨"n1", true⟩], []⟩ :=
  (C3_failedBuildKeepsState ⟨502, ⟨[], []⟩⟩ (by decide)).2 ⟨[⟨"n1", true⟩], []⟩ ⟨some [⟨"p2"⟩]⟩ 800 600

/-- C4: with a non-empty results list, onSearch issues exactly one buildGraph
call, for the paperId of the first result with the window dimensions; with an
empty or absent results list it issues none and leaves the state unchanged. -/
theorem C4_onSearch (st : AppState) (searchRes : SearchResponse) (w hgt : ℚ)
    (outcome : Except String GraphPayload) :
    (∀ r rs, searchRes.results = some (r :: rs) →
      (onSearch st searchRes w hgt outcome).2 = some (r.paperId, w, hgt)) ∧
    ((searchRes.results = none ∨ searchRes.results = some []) →
      onSearch st searchRes w hgt outcome = (st, none)) := by
  constructor
  · rintro r rs hr
    rcases searchRes with ⟨res⟩
    cases hr
    cases outcome <;> rfl
  · rintro (hr | hr) <;> rcases searchRes with ⟨res⟩ <;> cases hr <;> rfl

/-- Witness for C4: a concrete two-result search issues a buildGraph call for
the first paperId, and a concrete empty-results search issues none. -/
theorem C4_witness :
    (onSearch ⟨[], []⟩ ⟨some [⟨"pA"⟩, ⟨"pB"⟩]⟩ 800 600 (.ok ⟨[⟨"pA", true⟩], []⟩)).2 =
      some ("pA", 800, 600) ∧
    onSearch ⟨[⟨"n1", true⟩], []⟩ ⟨some []⟩ 800 600 (.ok ⟨[], []⟩) =
      (⟨[⟨"n1", true⟩], []⟩, none) :=
  ⟨(C4_onSearch ⟨[], []⟩ ⟨some [⟨"pA"⟩, ⟨"pB"⟩]⟩ 800 600 (.ok ⟨[⟨"pA", true⟩], []⟩)).1
      ⟨"pA"⟩ [⟨"pB"⟩] rfl,
   (C4_onSearch ⟨[⟨"n1", true⟩], []⟩ ⟨some []⟩ 800 600 (.ok ⟨[], []⟩)).2 (Or.inr rfl)⟩

/-- Modelled from the spec: the backend Coupling Scorer (spec section 4.3) is
not among the provided source files (the repository backend is absent from
src); this definition follows the spec formula
coupling(seed, c) = |R(seed) ∩ R(c)| / min(|R(seed)|, |R(c)|),
with value 0 when either reference set is empty. -/
def coupling {α : Type} [DecidableEq α] (RA RB : Finset α) : ℚ :=
  if RA = ∅ ∨ RB = ∅ then 0
  else ((RA ∩ RB).card : ℚ) / (min RA.card RB.card : ℚ)

/-- C5: the coupling score is the shared-reference count over the smaller
reference-list size when both lists are non-empty, is 0 when either list is
empty, and is symmetric in its two arguments. -/
theorem C5_coupling {α : Type} [DecidableEq α] (RA RB : Finset α) :
    (RA.Nonempty → RB.Nonempty →
      coupling RA RB = ((RA ∩ RB).card : ℚ) / (min RA.card RB.card : ℚ)) ∧
    (RA = ∅ ∨ RB = ∅ → coupling RA RB = 0) ∧
    coupling RA RB = coupling RB RA := by
  refine ⟨fun ha hb => ?_, fun h => if_pos h, ?_⟩
  · rw [coupling, if_neg]
    push_neg
    exact ⟨Finset.nonempty_iff_ne_empty.mp ha, Finset.nonempty_iff_ne_empty.mp hb⟩
  · by_cases h : RA = ∅ ∨ RB = ∅
    · rw [coupling, coupling, if_pos h, if_pos h.symm]
    · rw [coupling, coupling, if_neg h, if_neg (fun hc => h hc.symm),
        Finset.inter_comm, min_comm]

/-- Witness for C5: the spec scenario with reference lists of sizes 2 and 3
takes the normalized-overlap value. -/
theorem C5_witness :
    coupling ({1, 2} : Finset ℕ) {1, 2, 3} =
      ((({1, 2} : Finset ℕ) ∩ {1, 2, 3}).card : ℚ) /
        (min ({1, 2} : Finset ℕ).card ({1, 2, 3} : Finset ℕ).card : ℚ) :=
  (C5_coupling _ _).1 ⟨1, by decide⟩ ⟨1, by decide⟩

/-- The POST request issued by the api.js client, with the JSON body kept as
an ordered key-value list. -/
structure PostRequest where
  method : String
  base : String
  path : String
  body : List (String × String)
deriving DecidableEq, Repr

/-- api.summarizeConnection from api.js: a POST on /summarize_connection with
the JSON body binding source_abstract and target_abstract, in that order. -/
def summarizeConnectionRequest (sourceAbstract targetAbstract : String) : PostRequest :=
  ⟨"POST", API_BASE_URL, "/summarize_connection",
   [("source_abstract", sourceAbstract), ("target_abstract", targetAbstract)]⟩

/-- The JSON payload of a successful summarize_connection response. -/
structure SummaryPayload where
  summary : String
deriving DecidableEq, Repr

/-- An HTTP response to a summarize_connection request. -/
structure SummaryResponse where
  status : ℕ
  payload : SummaryPayload

/-- Response handling in api.summarizeConnection: a non-ok status throws
("Summarization failed"), an ok status returns the parsed payload. -/
def summarizeConnectionResult (resp : SummaryResponse) : Except String SummaryPayload :=
  if statusOk resp.status then .ok resp.payload else .error "Summarization failed"

/-- JavaScript `x || d` on an optional string: an absent argument and the
empty string yield the fallback. -/
def jsOrString (x : Option String) (d : String) : String :=
  match x with
  | none => d
  | some s => if s = "" then d else s

/-- handleExplain of the Sidebar component: the seed and target abstracts
fall back to fixed placeholder strings, api.summarizeConnection is called,
and the displayed explanation is the summary field of a successful response
or a fixed failure message. The first component records the request issued. -/
def handleExplain (seedAbstract targetAbstract : Option String) (resp : SummaryResponse) :
    PostRequest × String :=
  let sa := jsOrString seedAbstract "No abstract available for seed paper."
  let ta := jsOrString targetAbstract "No abstract available."
  match summarizeConnectionResult resp with
  | .ok p => (summarizeConnectionRequest sa ta, p.summary)
  | .error _ =>
    (summarizeConnectionRequest sa ta, "Failed to generate explanation. Please try again.")

/-- C7: api.summarizeConnection issues a POST on /summarize_connection whose
body has exactly the keys source_abstract and target_abstract bound to the
two arguments in that order, and on a 2xx response the Sidebar displays the
summary field of the parsed payload. -/
theorem C7_summarizeConnection (s t : String) (sa ta : Option String) (resp : SummaryResponse) :
    ((summarizeConnectionRequest s t).method = "POST" ∧
     (summarizeConnectionRequest s t).base = API_BASE_URL ∧
     (summarizeConnectionRequest s t).path = "/summarize_connection" ∧
     (summarizeConnectionRequest s t).body = [("source_abstract", s), ("target_abstract", t)]) ∧
    (statusOk resp.status = true → (handleExplain sa ta resp).2 = resp.payload.summary) := by
  refine ⟨⟨rfl, rfl, rfl, rfl⟩, fun h => ?_⟩
  simp [handleExplain, summarizeConnectionResult, h]

/-- Witness for C7: a 200 response displays its summary field. -/
theorem C7_witness :
    (handleExplain (some "absA") (some "absB") ⟨200, ⟨"they relate"⟩⟩).2 = "they relate" :=
  (C7_summarizeConnection "x" "y" (some "absA") (some "absB") ⟨200, ⟨"they relate"⟩⟩).2 (by decide)

/-- handleSubmit of the SearchBar component: a query whose trim is empty
returns at once; otherwise onSearch runs on the raw query. The result records
the state afterwards, the query passed to onSearch if any, and the buildGraph
request the onSearch run issued, if any. -/
def handleSubmit (query : String) (st : AppState)
    (os : String → AppState × Option (String × ℚ × ℚ)) :
    AppState × Option String × Option (String × ℚ × ℚ) :=
  if jsTrim query = "" then (st, none, none)
  else ((os query).1, some query, (os query).2)

/-- C8: a query consisting only of whitespace (the empty query included) makes
handleSubmit return without invoking onSearch: no search query and no
buildGraph request are issued and the state is unchanged. -/
theorem C8_handleSubmit (query : String) (st : AppState)
    (os : String → AppState × Option (String × ℚ × ℚ))
    (h : ∀ c ∈ query.data, isJsWhitespace c = true) :
    handleSubmit query st os = (st, none, none) := by
  have h1 : query.data.dropWhile isJsWhitespace = [] := by
    rw [List.dropWhile_eq_nil_iff]
    exact h
  have h2 : jsTrim query = "" := by
    simp [jsTrim, h1]
  rw [handleSubmit, if_pos h2]

/-- Witness for C8: a two-space query leaves a concrete state untouched and
issues nothing, despite an onSearch that would change everything. -/
theorem C8_witness :
    handleSubmit "  " ⟨[⟨"n1", true⟩], []⟩ (fun q => (⟨[], []⟩, some (q, 1, 1))) =
      (⟨[⟨"n1", true⟩], []⟩, none, none) :=
  C8_handleSubmit "  " ⟨[⟨"n1", true⟩], []⟩ (fun q => (⟨[], []⟩, some (q, 1, 1))) (by decide)

/-- Modelled from the spec: ring capacity of the layout (spec section 4.4
leaves the exact ring sizes implementation-defined). -/
def RING_SIZE : ℕ := 8

/-- Modelled from the spec: the viewport-fitting radius bound
0.45 * min(width, height) (spec sections 4.4 and 8). -/
def maxRadius (width height : ℚ) : ℚ := 45 / 100 * min width height

/-- A rational point on the unit circle, used as the deterministic direction
vector of an angular position; the parameter plays the role of the angle. -/
def circlePoint (t : ℚ) : ℚ × ℚ :=
  ((1 - t ^ 2) / (1 + t ^ 2), 2 * t / (1 + t ^ 2))

/-- A candidate retained after scoring, carrying its edge weight. -/
structure Candidate where
  id : String
  weight : ℚ
deriving DecidableEq, Repr

/-- A laid-out graph node with its initial 2D position. -/
structure LayoutNode where
  id : String
  isSeed : Bool
  position : ℚ × ℚ
deriving DecidableEq, Repr

/-- Insertion step of the descending-weight sort. -/
def insertByWeight (c : Candidate) : List Candidate → List Candidate
  | [] => [c]
  | d :: rest => if d.weight < c.weight then c :: d :: rest else d :: insertByWeight c rest

/-- Candidates sorted by descending edge weight, so stronger relations come
first and land on inner rings. -/
def sortByWeightDesc : List Candidate → List Candidate
  | [] => []
  | c :: rest => insertByWeight c (sortByWeightDesc rest)

/-- Modelled from the spec: deterministic per-ring angular offset derived
from a stable hash of the seed id and the ring index (spec section 9). -/
def ringOffset (seedId : String) (ring : ℕ) : ℚ :=
  (((seedId.length + ring) % RING_SIZE : ℕ) : ℚ) / (2 * (RING_SIZE : ℚ))

/-- Position of the candidate at rank k: ring k / RING_SIZE, radius growing
linearly with the ring index up to the viewport bound, equal angular
increments within a ring plus the per-ring offset. -/
def placeNode (center : ℚ × ℚ) (M : ℚ) (numRings : ℕ) (seedId : String)
    (k : ℕ) (c : Candidate) : LayoutNode :=
  let ring := k / RING_SIZE
  let radius := M * ((ring : ℚ) + 1) / (numRings : ℚ)
  let t := ringOffset seedId ring + ((k % RING_SIZE : ℕ) : ℚ) / (RING_SIZE : ℚ)
  let d := circlePoint t
  ⟨c.id, false, (center.1 + radius * d.1, center.2 + radius * d.2)⟩

/-- Places the candidates starting at rank k. -/
def placeCands (center : ℚ × ℚ) (M : ℚ) (numRings : ℕ) (seedId : String) :
    ℕ → List Candidate → List LayoutNode
  | _, [] => []
  | k, c :: rest =>
    placeNode center M numRings seedId k c :: placeCands center M numRings seedId (k + 1) rest

/-- Modelled from the spec: the Graph Assembler and Layout (spec section 4.4)
is not among the provided source files (the repository backend is absent from
src). The seed goes to the canvas center; the candidates, sorted by
descending weight, fill concentric rings of RING_SIZE, the outermost ring
staying within maxRadius of the center. -/
def buildLayout (seedId : String) (cands : List Candidate) (width height : ℚ) :
    List LayoutNode :=
  let center : ℚ × ℚ := (width / 2, height / 2)
  let sorted := sortByWeightDesc cands
  let numRings := (sorted.length + (RING_SIZE - 1)) / RING_SIZE
  ⟨seedId, true, center⟩ :: placeCands center (maxRadius width height) numRings seedId 0 sorted

/-- Squared Euclidean distance between two points. -/
def sqDist (p q : ℚ × ℚ) : ℚ := (p.1 - q.1) ^ 2 + (p.2 - q.2) ^ 2

lemma circlePoint_norm (t : ℚ) : (circlePoint t).1 ^ 2 + (circlePoint t).2 ^ 2 = 1 := by
  have h : (1 + t ^ 2) ≠ 0 := by positivity
  simp only [circlePoint]
  field_simp
  ring

lemma placeCands_mem (center : ℚ × ℚ) (M : ℚ) (numRings : ℕ) (seedId : String) :
    ∀ (k : ℕ) (l : List Candidate) (node : LayoutNode),
      node ∈ placeCands center M numRings seedId k l →
      ∃ j c, j < k + l.length ∧ node = placeNode center M numRings seedId j c := by
  intro k l
  induction l generalizing k with
  | nil =>
    intro node h
    simp [placeCands] at h
  | cons c rest ih =>
    intro node h
    simp only [placeCands] at h
    rcases List.mem_cons.mp h with h1 | h2
    · exact ⟨k, c, by simp, h1⟩
    · obtain ⟨j, c2, hj, hn⟩ := ih (k + 1) node h2
      exact ⟨j, c2, by simp at hj ⊢; omega, hn⟩

lemma placeNode_sqDist (center : ℚ × ℚ) (M : ℚ) (numRings : ℕ) (seedId : String)
    (k : ℕ) (c : Candidate) :
    sqDist (placeNode center M numRings seedId k c).position center =
      (M * (((k / RING_SIZE : ℕ) : ℚ) + 1) / (numRings : ℚ)) ^ 2 := by
  simp only [placeNode, sqDist]
  have h := circlePoint_norm
    (ringOffset seedId (k / RING_SIZE) + ((k % RING_SIZE : ℕ) : ℚ) / (RING_SIZE : ℚ))
  linear_combination (M * (((k / RING_SIZE : ℕ) : ℚ) + 1) / (numRings : ℚ)) ^ 2 * h

lemma radius_bounds (M : ℚ) (hM : 0 ≤ M) (numRings : ℕ) (k : ℕ)
    (hk : k < numRings * RING_SIZE) :
    0 ≤ M * (((k / RING_SIZE : ℕ) : ℚ) + 1) / (numRings : ℚ) ∧
    M * (((k / RING_SIZE : ℕ) : ℚ) + 1) / (numRings : ℚ) ≤ M := by
  have h8 : RING_SIZE = 8 := rfl
  have hpos : 0 < numRings := by rw [h8] at hk; omega
  have hring : k / RING_SIZE + 1 ≤ numRings := by rw [h8] at hk ⊢; omega
  have hcast : ((k / RING_SIZE : ℕ) : ℚ) + 1 ≤ (numRings : ℚ) := by exact_mod_cast hring
  have hn : (0 : ℚ) < (numRings : ℚ) := by exact_mod_cast hpos
  constructor
  · apply div_nonneg _ hn.le
    apply mul_nonneg hM
    positivity
  · rw [div_le_iff₀ hn]
    calc M * (((k / RING_SIZE : ℕ) : ℚ) + 1) ≤ M * (numRings : ℚ) :=
          mul_le_mul_of_nonneg_left hcast hM
      _ = M * (numRings : ℚ) := rfl

lemma le_rings_mul (n : ℕ) : n ≤ (n + (RING_SIZE - 1)) / RING_SIZE * RING_SIZE := by
  have h8 : RING_SIZE = 8 := rfl
  rw [h8]
  omega

/-- C6: every node of the built layout is either the seed, placed exactly at
the canvas center, or a candidate whose squared distance to the center is at
most the square of 0.45 * min(width, height). -/
theorem C6_layout (seedId : String) (cands : List Candidate) (width height : ℚ)
    (hw : 0 ≤ width) (hh : 0 ≤ height) (node : LayoutNode)
    (hmem : node ∈ buildLayout seedId cands width height) :
    (node.isSeed = true → node.position = (width / 2, height / 2)) ∧
    (node.isSeed = false →
      sqDist node.position (width / 2, height / 2) ≤ maxRadius width height ^ 2) := by
  have hM : 0 ≤ maxRadius width height := by
    have hmin : 0 ≤ min width height := le_min hw hh
    unfold maxRadius
    positivity
  simp only [buildLayout] at hmem
  rcases List.mem_cons.mp hmem with h1 | h2
  · subst h1
    exact ⟨fun _ => rfl, fun hfalse => by simp at hfalse⟩
  · obtain ⟨j, c, hj, rfl⟩ := placeCands_mem _ _ _ _ 0 _ node h2
    refine ⟨fun htrue => by simp [placeNode] at htrue, fun _ => ?_⟩
    rw [placeNode_sqDist]
    have hlen := le_rings_mul (sortByWeightDesc cands).length
    have hk : j < ((sortByWeightDesc cands).length + (RING_SIZE - 1)) / RING_SIZE * RING_SIZE := by
      omega
    obtain ⟨h0, hle⟩ := radius_bounds (maxRadius width height) hM _ j hk
    exact pow_le_pow_left₀ h0 hle 2

/-- Witness for C6: in a 1000 by 1000 canvas with one candidate, the seed
node sits at (500, 500). -/
theorem C6_witness :
    (⟨"s", true, (1000 / 2, 1000 / 2)⟩ : LayoutNode).position = (1000 / 2, 1000 / 2) :=
  (C6_layout "s" [⟨"a", 1 / 2⟩] 1000 1000 (by norm_num) (by norm_num)
    ⟨"s", true, (1000 / 2, 1000 / 2)⟩ (by simp [buildLayout])).1 rfl
